import Mathlib

/-!
Verification of the pii-tee core (`src/api/services/toolkit_service.py`,
`src/api/services/quote/quote_service.py`,
`src/api/services/state/inmemory_state_service.py`) against its
natural-language specification.

Python strings are embedded as `List Char` (`Str`), bytes as `Fin 256`
(`Byte`).  The external Presidio detector (not present in the repository
sources) is modelled from the spec as an abstract contract; the external
cryptography libraries (Ed25519 from `cryptography`, ECDSA from
`eth_account`/`web3`) are modelled as abstract schemes over which theorems
are parametric, while the repository's own encoding/decoding and dispatch
logic (hex, base64, `0x` stripping, method dispatch, exception coercion) is
embedded concretely.
-/

namespace PiiTee

abbrev Str := List Char

abbrev Byte := Fin 256

/-- Coerce a natural number into a byte (`% 256`). -/
def byte (n : Nat) : Byte := ⟨n % 256, Nat.mod_lt _ (by decide)⟩

/-! ### UTF-8 encoding (`str.encode("utf-8")` in the Python sources) -/

/-- UTF-8 encoding of a single character. -/
def utf8Char (c : Char) : List Byte :=
  let n := c.toNat
  if n < 0x80 then [byte n]
  else if n < 0x800 then [byte (0xC0 + n / 64), byte (0x80 + n % 64)]
  else if n < 0x10000 then
    [byte (0xE0 + n / 4096), byte (0x80 + n / 64 % 64), byte (0x80 + n % 64)]
  else
    [byte (0xF0 + n / 262144), byte (0x80 + n / 4096 % 64),
     byte (0x80 + n / 64 % 64), byte (0x80 + n % 64)]

/-- UTF-8 encoding of a string, as in Python's `content.encode("utf-8")`. -/
def utf8 (s : Str) : List Byte := s.flatMap utf8Char

/-! ### Hexadecimal encoding (`bytes.hex()` / `bytes.fromhex`) -/

/-- Lower-case hex digit for a value `< 16`, as produced by `bytes.hex()`. -/
def hexDigitChar (n : Nat) : Char :=
  if n < 10 then Char.ofNat (48 + n) else Char.ofNat (97 + n - 10)

/-- `bytes.hex()`: lower-case hex, two digits per byte, no prefix. -/
def hexEncode : List Byte → Str
  | [] => []
  | b :: bs => hexDigitChar (b.val / 16) :: hexDigitChar (b.val % 16) :: hexEncode bs

/-- Value of one hex digit; `bytes.fromhex` accepts both cases. -/
def hexDigitVal (c : Char) : Option Nat :=
  if 48 ≤ c.toNat ∧ c.toNat ≤ 57 then some (c.toNat - 48)
  else if 97 ≤ c.toNat ∧ c.toNat ≤ 102 then some (c.toNat - 97 + 10)
  else if 65 ≤ c.toNat ∧ c.toNat ≤ 70 then some (c.toNat - 65 + 10)
  else none

/-- `bytes.fromhex`: an even number of hex digits, else an error (`none`).
(Python additionally skips ASCII spaces between pairs; the sources never
produce such strings.) -/
def hexDecode : Str → Option (List Byte)
  | [] => some []
  | [_] => none
  | c1 :: c2 :: rest =>
    match hexDigitVal c1, hexDigitVal c2, hexDecode rest with
    | some h, some l, some bs => some (byte (h * 16 + l) :: bs)
    | _, _, _ => none

/-! ### Base64 (`base64.b64encode` / `base64.b64decode`) -/

/-- Standard base64 alphabet character for a sextet `< 64`. -/
def b64Char (n : Nat) : Char :=
  if n < 26 then Char.ofNat (65 + n)
  else if n < 52 then Char.ofNat (97 + n - 26)
  else if n < 62 then Char.ofNat (48 + n - 52)
  else if n = 62 then '+' else '/'

/-- Sextet value of a base64 alphabet character, `none` otherwise. -/
def b64Val (c : Char) : Option Nat :=
  if 65 ≤ c.toNat ∧ c.toNat ≤ 90 then some (c.toNat - 65)
  else if 97 ≤ c.toNat ∧ c.toNat ≤ 122 then some (c.toNat - 97 + 26)
  else if 48 ≤ c.toNat ∧ c.toNat ≤ 57 then some (c.toNat - 48 + 52)
  else if c = '+' then some 62
  else if c = '/' then some 63
  else none

/-- `base64.b64encode`: 3-byte groups become 4 characters, with `=` padding. -/
def b64encode : List Byte → Str
  | [] => []
  | [b1] => [b64Char (b1.val / 4), b64Char (b1.val % 4 * 16), '=', '=']
  | [b1, b2] =>
    [b64Char (b1.val / 4), b64Char (b1.val % 4 * 16 + b2.val / 16),
     b64Char (b2.val % 16 * 4), '=']
  | b1 :: b2 :: b3 :: rest =>
    b64Char (b1.val / 4) :: b64Char (b1.val % 4 * 16 + b2.val / 16) ::
    b64Char (b2.val % 16 * 4 + b3.val / 64) :: b64Char (b3.val % 64) ::
    b64encode rest

/-- Decode complete 4-character base64 quanta; padding (`=`) only in the final
quantum, any other shape is an error. -/
def b64decodeQ : Str → Option (List Byte)
  | [] => some []
  | c1 :: c2 :: c3 :: c4 :: rest =>
    match b64Val c1, b64Val c2 with
    | some s1, some s2 =>
      if c3 = '=' then
        if c4 = '=' ∧ rest = [] then some [byte (s1 * 4 + s2 / 16)] else none
      else
        match b64Val c3 with
        | some s3 =>
          if c4 = '=' then
            if rest = [] then
              some [byte (s1 * 4 + s2 / 16), byte (s2 % 16 * 16 + s3 / 4)]
            else none
          else
            match b64Val c4, b64decodeQ rest with
            | some s4, some bs =>
              some (byte (s1 * 4 + s2 / 16) :: byte (s2 % 16 * 16 + s3 / 4) ::
                    byte (s3 % 4 * 64 + s4) :: bs)
            | _, _ => none
        | none => none
    | _, _ => none
  | _ => none

/-- `base64.b64decode` (default, non-validating): characters outside the
alphabet and padding are discarded, then the residue must consist of whole
4-character quanta with correct final padding, else `binascii.Error`
(modelled as `none`). -/
def b64decode (s : Str) : Option (List Byte) :=
  b64decodeQ (s.filter (fun c => (b64Val c).isSome || c = '='))

/-! ### External cryptography libraries, as abstract schemes

The repository calls `cryptography`'s Ed25519 primitives and
`eth_account`/`web3`'s ECDSA primitives.  These libraries are outside the
repository; theorems are parametric over schemes, with the standard
correctness facts (signature of a keypair verifies, recovery returns the
signer's address) taken as hypotheses where a claim needs them.  Key handles
and accounts are opaque `Nat`s. -/

/-- `cryptography.hazmat...ed25519`: `pub k` is the 32-byte raw public key of
private key `k` (`public_bytes(Raw, Raw)`), `sign k m` the 64-byte signature,
`verify pb sb m` the outcome of `Ed25519PublicKey.verify` with every raised
`InvalidSignature`/length error coerced to `false` (the Python caller catches
them all and returns `False`). -/
structure EdScheme where
  pub : Nat → List Byte
  sign : Nat → List Byte → List Byte
  verify : List Byte → List Byte → List Byte → Bool

/-- `eth_account`/`web3` ECDSA over the `encode_defunct` message of a content
string: `sign a c` is `a.sign_message(encode_defunct(text=c)).signature`,
`address a` is `a.address`, and `recover c sb` is
`Account.recover_message(encode_defunct(text=c), signature=sb)` with a raised
exception modelled as `none`. -/
structure EthScheme where
  sign : Nat → Str → List Byte
  address : Nat → Str
  recover : Str → List Byte → Option Str

/-! ### `QuoteService` (`src/api/services/quote/quote_service.py`) -/

def ED25519 : Str := "ed25519".toList

def ECDSA : Str := "ecdsa".toList

/-- Event log attached to a quote: parsed JSON from the anchor, or the mock
`{"type": "mock", "timestamp": "development"}`. -/
inductive EventLog : Type
  | parsed (raw : Str)
  | mockLog
deriving DecidableEq

/-- Tappd info: parsed JSON response, or the development mock (which embeds
the service's current public key). -/
inductive TappdInfo : Type
  | parsed (raw : Str)
  | mockInfo (public_key : Option Str)
deriving DecidableEq

/-- Outcome of one call to the local trust anchor: a successful payload, a
`FileNotFoundError`/`socket.error` (no TEE socket), or another exception. -/
inductive AnchorRes (α : Type) : Type
  | ok (val : α)
  | notFound
  | err (msg : Str)

/-- Mutable state of a `QuoteService` instance (`__init__` sets every field
but `signing_method` to `None`). -/
structure QuoteService where
  signing_method : Str
  signing_address : Option Str
  intel_quote : Option Str
  event_log : Option EventLog
  info : Option TappdInfo
  public_key : Option Str
  raw_acct : Option Nat
  ed25519_key : Option Nat

/-- `QuoteService.__init__`. -/
def mkQuoteService (method : Str) : QuoteService :=
  { signing_method := method, signing_address := none, intel_quote := none,
    event_log := none, info := none, public_key := none, raw_acct := none,
    ed25519_key := none }

/-- The dictionary returned by `_get_quote_data`. -/
structure QuoteData where
  signing_address : Option Str
  public_key : Option Str
  intel_quote : Option Str
  event_log : Option EventLog
  info : Option TappdInfo
  signing_method : Str

/-- `QuoteService._get_quote_data`. -/
def quoteDataOf (q : QuoteService) : QuoteData :=
  { signing_address := q.signing_address, public_key := q.public_key,
    intel_quote := q.intel_quote, event_log := q.event_log, info := q.info,
    signing_method := q.signing_method }

/-- Nondeterministic environment of one `init()` call: the freshly generated
Ed25519 key (`Ed25519PrivateKey.generate()`), the freshly created account
(`w3.eth.account.create()`), and the two trust-anchor outcomes. -/
structure InitEnv where
  edKey : Nat
  acct : Nat
  quoteRes : AnchorRes (Str × EventLog)
  infoRes : AnchorRes TappdInfo

/-- `QuoteService._init_ed25519`: fresh key, base64 raw public key, hex
signing address. -/
def init_ed25519 (E : EdScheme) (k : Nat) (q : QuoteService) : QuoteService :=
  { q with ed25519_key := some k,
           public_key := some (b64encode (E.pub k)),
           signing_address := some (hexEncode (E.pub k)) }

/-- `QuoteService._init_ecdsa`: fresh account; the public key exposed for
verification is the account address. -/
def init_ecdsa (eth : EthScheme) (a : Nat) (q : QuoteService) : QuoteService :=
  { q with raw_acct := some a,
           signing_address := some (eth.address a),
           public_key := some (eth.address a) }

/-- The development mock quote:
`"MOCK_QUOTE_" + base64.b64encode(public_key.encode()).decode()[:32]`. -/
def mockQuote (public_key : Str) : Str :=
  "MOCK_QUOTE_".toList ++ (b64encode (utf8 public_key)).take 32

/-- `QuoteService._get_quote`: anchor success passes through, a missing TEE
socket falls back to clearly-tagged mock data, any other exception
propagates. -/
def get_quote (env : InitEnv) (public_key : Str) : Except Str (Str × EventLog) :=
  match env.quoteRes with
  | .ok val => .ok val
  | .notFound => .ok (mockQuote public_key, EventLog.mockLog)
  | .err e => .error e

/-- `QuoteService._get_info`: same fallback policy as `_get_quote`; the mock
payload embeds the service's current public key. -/
def get_info (env : InitEnv) (q : QuoteService) : Except Str TappdInfo :=
  match env.infoRes with
  | .ok i => .ok i
  | .notFound => .ok (TappdInfo.mockInfo q.public_key)
  | .err e => .error e

/-- `QuoteService.init`: early-return of the cached data when already
initialized and not forced; otherwise generate the identity for the
configured method (`ValueError` on an unsupported one), fetch quote and
info, and return the assembled quote data together with the new state. -/
def QuoteService.init (E : EdScheme) (eth : EthScheme) (env : InitEnv) (force : Bool)
    (q : QuoteService) : Except Str (QuoteData × QuoteService) :=
  if q.signing_address.isSome ∧ ¬force then .ok (quoteDataOf q, q)
  else
    let q1res : Except Str QuoteService :=
      if q.signing_method = ED25519 then .ok (init_ed25519 E env.edKey q)
      else if q.signing_method = ECDSA then .ok (init_ecdsa eth env.acct q)
      else .error "Unsupported signing method".toList
    match q1res with
    | .error e => .error e
    | .ok q1 =>
      match get_quote env (q1.public_key.getD []) with
      | .error e => .error e
      | .ok (iq, el) =>
        let q2 := { q1 with intel_quote := some iq, event_log := some el }
        match get_info env q2 with
        | .error e => .error e
        | .ok i =>
          let q3 := { q2 with info := some i }
          .ok (quoteDataOf q3, q3)

/-- `QuoteService.sign_content`: dispatch on the configured method; an
uninitialized key (`None`) raises `AttributeError`, an unsupported method
raises `ValueError`; there is no auto-initialization. -/
def QuoteService.sign_content (E : EdScheme) (eth : EthScheme) (q : QuoteService)
    (content : Str) : Except Str Str :=
  if q.signing_method = ED25519 then
    match q.ed25519_key with
    | none => .error "AttributeError: NoneType has no attribute sign".toList
    | some k => .ok (hexEncode (E.sign k (utf8 content)))
  else if q.signing_method = ECDSA then
    match q.raw_acct with
    | none => .error "AttributeError: NoneType has no attribute sign_message".toList
    | some a => .ok ('0' :: 'x' :: hexEncode (eth.sign a content))
  else .error "Unsupported signing method".toList

/-- `if signature.startswith('0x'): signature = signature[2:]`. -/
def strip0x : Str → Str
  | '0' :: 'x' :: rest => rest
  | s => s

/-- `QuoteService._verify_ed25519`: base64-decode the public key, check the
32-byte length (`from_public_bytes`), hex-decode the signature, verify; every
failure is `False`. -/
def verify_ed25519 (E : EdScheme) (content signature public_key_str : Str) : Bool :=
  match b64decode public_key_str with
  | none => false
  | some pb =>
    if pb.length = 32 then
      match hexDecode signature with
      | none => false
      | some sb => E.verify pb sb (utf8 content)
    else false

/-- `QuoteService._verify_ecdsa`: strip an optional `0x` prefix, hex-decode,
recover the signer address, compare case-insensitively with the expected
address; every failure is `False`. -/
def verify_ecdsa (eth : EthScheme) (content signature public_key_str : Str) : Bool :=
  match hexDecode (strip0x signature) with
  | none => false
  | some sb =>
    match eth.recover content sb with
    | none => false
    | some addr => addr.map Char.toLower == public_key_str.map Char.toLower

/-- `QuoteService.verify_signature`: dispatch on the configured method; an
unsupported method or any internal exception yields `False`, never an
error. -/
def QuoteService.verify_signature (E : EdScheme) (eth : EthScheme) (q : QuoteService)
    (content signature public_key : Str) : Bool :=
  if q.signing_method = ED25519 then verify_ed25519 E content signature public_key
  else if q.signing_method = ECDSA then verify_ecdsa eth content signature public_key
  else false

/-! ### Session state (`src/api/services/state/inmemory_state_service.py`)

The in-memory store is a Python dict `session_id -> entity_mappings`,
embedded as an association list where assignment prepends and lookup takes
the first (most recent) binding. -/

abbrev Mapping := List (Str × Str)

abbrev Store := List (Str × Mapping)

/-- `InMemoryStateService.get_state`: `self.store.get(session_id)`. -/
def get_state (store : Store) (session_id : Str) : Option Mapping :=
  List.lookup session_id store

/-- `InMemoryStateService.set_state`: `self.store[session_id] = entity_mappings`. -/
def set_state (store : Store) (session_id : Str) (entity_mappings : Mapping) : Store :=
  (session_id, entity_mappings) :: store

/-! ### `ToolkitService` (`src/api/services/toolkit_service.py`) -/

/-- Modelled from the spec: the external Presidio detector
(`services.presidio.presidio_service`, not present in the repository
sources).  `detect(sessionId, text, language, mapping) -> (text, mapping)`
and `restore(sessionId, text, mapping) -> text` are pure transformation
functions over a string-keyed mapping; the orchestrator passes `None`
(`none`) for the mapping of a fresh or unknown session. -/
structure PresidioService where
  anonymize_text : Str → Str → Str → Option Mapping → (Str × Mapping)
  deanonymize_text : Str → Str → Mapping → Str

/-- The four attestation fields assembled by
`ToolkitService._generate_quote_and_signature`. -/
structure QuoteFields where
  quote : Option Str
  signature : Option Str
  public_key : Option Str
  signing_method : Option Str
deriving DecidableEq

/-- The all-`None` fallback returned when quote/signature generation fails. -/
def fallbackQuoteFields : QuoteFields :=
  { quote := none, signature := none, public_key := none, signing_method := none }

/-- `ToolkitService._generate_quote_and_signature`: create a fresh
`QuoteService`, initialize it, sign the content; any exception from either
step is swallowed and replaced by the all-`None` fallback. -/
def generate_quote_and_signature (E : EdScheme) (eth : EthScheme) (env : InitEnv)
    (signing_method : Str) (content : Str) : QuoteFields :=
  match (mkQuoteService signing_method).init E eth env false with
  | .error _ => fallbackQuoteFields
  | .ok (quote_data, quote_service) =>
    match quote_service.sign_content E eth content with
    | .error _ => fallbackQuoteFields
    | .ok signature =>
      { quote := quote_data.intel_quote, signature := some signature,
        public_key := quote_data.public_key,
        signing_method := some quote_data.signing_method }

/-- Response of `ToolkitService.anonymize`. -/
structure AnonResponse where
  session_id : Str
  text : Str
  quote : Option Str
  signature : Option Str
  public_key : Option Str
  signing_method : Option Str

/-- Response of `ToolkitService.deanonymize`. -/
structure DeanonResponse where
  text : Str
  quote : Option Str
  signature : Option Str
  public_key : Option Str
  signing_method : Option Str

/-- `ToolkitService.anonymize`.  `fresh_id` is the `uuid.uuid4()` drawn when
no session id is supplied.  Without a session id the mapping starts as
`None`; with one, whatever `get_state` returns (possibly `None`) is used.
The updated mapping is persisted, then attestation is attempted
best-effort. -/
def ToolkitService.anonymize (E : EdScheme) (eth : EthScheme) (p : PresidioService)
    (signing_method : Str) (env : InitEnv) (store : Store) (text : Str)
    (session_id : Option Str) (language : Str) (fresh_id : Str) :
    AnonResponse × Store :=
  let resolved : Str × Option Mapping :=
    match session_id with
    | none => (fresh_id, none)
    | some s => (s, get_state store s)
  let sid := resolved.1
  let anonymized := p.anonymize_text sid text language resolved.2
  let store1 := set_state store sid anonymized.2
  let quote_data := generate_quote_and_signature E eth env signing_method anonymized.1
  ({ session_id := sid, text := anonymized.1, quote := quote_data.quote,
     signature := quote_data.signature, public_key := quote_data.public_key,
     signing_method := quote_data.signing_method }, store1)

/-- `ToolkitService.deanonymize`: a session with no stored mapping raises
`ValueError` (nothing is written); otherwise restore the text with the
stored mapping and attempt attestation best-effort.  The store is returned
unchanged on every path — the method never calls `set_state`. -/
def ToolkitService.deanonymize (E : EdScheme) (eth : EthScheme) (p : PresidioService)
    (signing_method : Str) (env : InitEnv) (store : Store) (text : Str)
    (session_id : Str) : Except Str DeanonResponse × Store :=
  match get_state store session_id with
  | none =>
    (.error "Deanonymization is not possible because the session is not found".toList,
     store)
  | some entity_mappings =>
    let restored := p.deanonymize_text session_id text entity_mappings
    let quote_data := generate_quote_and_signature E eth env signing_method restored
    (.ok { text := restored, quote := quote_data.quote,
           signature := quote_data.signature, public_key := quote_data.public_key,
           signing_method := quote_data.signing_method }, store)

/-! ### Concrete instances used to witness the parametric theorems -/

/-- A toy Ed25519 scheme: 32-byte keys headed by the key byte, constant
64-byte signatures, verification by comparison.  Satisfies the correctness
and key-length hypotheses of the theorems. -/
def toyEd : EdScheme :=
  { pub := fun k => byte k :: List.replicate 31 (byte k)
    sign := fun k _ => List.replicate 64 (byte k)
    verify := fun pb sb _ => sb == List.replicate 64 (pb.headD 0) }

/-- A toy ECDSA scheme: one-letter addresses, one-byte signatures encoding
the account, recovery by decoding that byte.  Satisfies the
recover-of-sign hypothesis. -/
def toyEth : EthScheme :=
  { sign := fun a _ => [byte (a % 26)]
    address := fun a => [Char.ofNat (97 + a % 26)]
    recover := fun _ sb =>
      match sb with
      | [b] => some [Char.ofNat (97 + b.val % 26)]
      | _ => none }

/-- A toy detector whose `detect` is the identity on the text and whose
`restore` returns the text unchanged; `detect`/`restore` are trivially
inverse. -/
def idPresidio : PresidioService :=
  { anonymize_text := fun _ t _ m => (t, m.getD [])
    deanonymize_text := fun _ t _ => t }

/-- A fixed benign environment: development mode, no TEE socket. -/
def devEnv : InitEnv :=
  { edKey := 5, acct := 7, quoteRes := .notFound, infoRes := .notFound }

/-- An environment whose trust-anchor quote call raises. -/
def failEnv : InitEnv :=
  { edKey := 5, acct := 7, quoteRes := .err "connection reset".toList,
    infoRes := .notFound }

/-- A second benign environment drawing different fresh keys (two `init()`
calls in one process draw independent random key material). -/
def devEnv2 : InitEnv :=
  { edKey := 6, acct := 8, quoteRes := .notFound, infoRes := .notFound }

/-- The service state produced by `init()` on a fresh Ed25519 service under
`toyEd`/`devEnv` (used to instantiate parametric theorems). -/
def witEdService : QuoteService :=
  { signing_method := ED25519,
    signing_address := some (hexEncode (toyEd.pub 5)),
    intel_quote := some (mockQuote (b64encode (toyEd.pub 5))),
    event_log := some .mockLog,
    info := some (.mockInfo (some (b64encode (toyEd.pub 5)))),
    public_key := some (b64encode (toyEd.pub 5)),
    raw_acct := none, ed25519_key := some 5 }

/-- The service state produced by `init()` on a fresh ECDSA service under
`toyEth`/`devEnv` (used to instantiate parametric theorems). -/
def witEcService : QuoteService :=
  { signing_method := ECDSA,
    signing_address := some (toyEth.address 7),
    intel_quote := some (mockQuote (toyEth.address 7)),
    event_log := some .mockLog,
    info := some (.mockInfo (some (toyEth.address 7))),
    public_key := some (toyEth.address 7),
    raw_acct := some 7, ed25519_key := none }

/-! ## Helper lemmas -/

theorem hexDigitVal_hexDigitChar : ∀ n < 16, hexDigitVal (hexDigitChar n) = some n := by
  decide

/-- Decoding inverts encoding: `bytes.fromhex(b.hex()) == b`. -/
theorem hexDecode_hexEncode (bs : List Byte) : hexDecode (hexEncode bs) = some bs := by
  induction bs with
  | nil => rfl
  | cons b bs ih =>
    have h1 : hexDigitVal (hexDigitChar (b.val / 16)) = some (b.val / 16) :=
      hexDigitVal_hexDigitChar _ (Nat.div_lt_of_lt_mul (by omega))
    have h2 : hexDigitVal (hexDigitChar (b.val % 16)) = some (b.val % 16) :=
      hexDigitVal_hexDigitChar _ (Nat.mod_lt _ (by decide))
    have hb : byte (b.val / 16 * 16 + b.val % 16) = b := by
      have : b.val / 16 * 16 + b.val % 16 = b.val := by omega
      simp [byte, this, Fin.ext_iff, Nat.mod_eq_of_lt b.isLt]
    simp [hexEncode, hexDecode, h1, h2, ih, hb]

theorem b64Val_b64Char : ∀ n < 64, b64Val (b64Char n) = some n := by
  decide

theorem b64Char_isSome : ∀ n < 64, (b64Val (b64Char n)).isSome = true := by
  decide

theorem b64Char_ne_eq : ∀ n < 64, (b64Char n = '=') = False := by
  decide

theorem byte_lt_bounds (b : Byte) :
    b.val / 4 < 64 ∧ b.val % 4 * 16 < 64 ∧ b.val % 16 * 4 < 64 ∧ b.val % 64 < 64 := by
  have := b.isLt; omega

/-- Every character emitted by `b64encode` survives `b64decode`'s filter. -/
theorem b64encode_filter :
    ∀ bs : List Byte,
      (b64encode bs).filter (fun c => (b64Val c).isSome || c = '=') = b64encode bs
  | [] => rfl
  | [b1] => by
    have h1 := b64Char_isSome _ (byte_lt_bounds b1).1
    have h2 := b64Char_isSome _ (byte_lt_bounds b1).2.1
    simp [b64encode, List.filter, h1, h2]
  | [b1, b2] => by
    have h1 := b64Char_isSome _ (byte_lt_bounds b1).1
    have h2 : (b64Val (b64Char (b1.val % 4 * 16 + b2.val / 16))).isSome = true :=
      b64Char_isSome _ (by have := b1.isLt; have := b2.isLt; omega)
    have h3 := b64Char_isSome _ (byte_lt_bounds b2).2.2.1
    simp [b64encode, List.filter, h1, h2, h3]
  | b1 :: b2 :: b3 :: rest => by
    have h1 := b64Char_isSome _ (byte_lt_bounds b1).1
    have h2 : (b64Val (b64Char (b1.val % 4 * 16 + b2.val / 16))).isSome = true :=
      b64Char_isSome _ (by have := b1.isLt; have := b2.isLt; omega)
    have h3 : (b64Val (b64Char (b2.val % 16 * 4 + b3.val / 64))).isSome = true :=
      b64Char_isSome _ (by have := b2.isLt; have := b3.isLt; omega)
    have h4 := b64Char_isSome _ (byte_lt_bounds b3).2.2.2
    simpa [b64encode, List.filter, h1, h2, h3, h4] using b64encode_filter rest

/-- Decoding the quanta produced by `b64encode` restores the bytes. -/
theorem b64decodeQ_b64encode : ∀ bs : List Byte, b64decodeQ (b64encode bs) = some bs
  | [] => rfl
  | [b1] => by
    have h1 := b64Val_b64Char _ (byte_lt_bounds b1).1
    have h2 := b64Val_b64Char _ (byte_lt_bounds b1).2.1
    have hne := b64Char_ne_eq _ (byte_lt_bounds b1).2.1
    have hb := b1.isLt
    simp only [b64encode, b64decodeQ, h1, h2, hne, if_false, if_true, and_self,
      byte, Option.some.injEq, List.cons.injEq, and_true, Fin.ext_iff]
    omega
  | [b1, b2] => by
    have hlt2 : b1.val % 4 * 16 + b2.val / 16 < 64 := by
      have := b1.isLt; have := b2.isLt; omega
    have h1 := b64Val_b64Char _ (byte_lt_bounds b1).1
    have h2 := b64Val_b64Char _ hlt2
    have h3 := b64Val_b64Char _ (byte_lt_bounds b2).2.2.1
    have hne2 := b64Char_ne_eq _ hlt2
    have hne3 := b64Char_ne_eq _ (byte_lt_bounds b2).2.2.1
    have hb1 := b1.isLt
    have hb2 := b2.isLt
    simp only [b64encode, b64decodeQ, h1, h2, h3, hne2, hne3, if_false, if_true,
      eq_self_iff_true, byte, Option.some.injEq, List.cons.injEq, and_true, Fin.ext_iff]
    omega
  | b1 :: b2 :: b3 :: rest => by
    have hlt2 : b1.val % 4 * 16 + b2.val / 16 < 64 := by
      have := b1.isLt; have := b2.isLt; omega
    have hlt3 : b2.val % 16 * 4 + b3.val / 64 < 64 := by
      have := b2.isLt; have := b3.isLt; omega
    have h1 := b64Val_b64Char _ (byte_lt_bounds b1).1
    have h2 := b64Val_b64Char _ hlt2
    have h3 := b64Val_b64Char _ hlt3
    have h4 := b64Val_b64Char _ (byte_lt_bounds b3).2.2.2
    have hne3 := b64Char_ne_eq _ hlt3
    have hne4 := b64Char_ne_eq _ (byte_lt_bounds b3).2.2.2
    have hb1 := b1.isLt
    have hb2 := b2.isLt
    have hb3 := b3.isLt
    have ih := b64decodeQ_b64encode rest
    simp only [b64encode, b64decodeQ, h1, h2, h3, h4, hne3, hne4, if_false, ih,
      byte, Option.some.injEq, List.cons.injEq, Fin.ext_iff]
    refine ⟨?_, ?_, ?_, ?_⟩ <;> first | trivial | omega

/-- Decoding inverts encoding: `base64.b64decode(base64.b64encode(b)) == b`. -/
theorem b64decode_b64encode (bs : List Byte) : b64decode (b64encode bs) = some bs := by
  rw [b64decode, b64encode_filter, b64decodeQ_b64encode]

theorem toyEd_correct (k : Nat) (m : List Byte) :
    toyEd.verify (toyEd.pub k) (toyEd.sign k m) m = true := by
  simp [toyEd]

theorem toyEd_publen (k : Nat) : (toyEd.pub k).length = 32 := by
  simp [toyEd]

theorem toyEth_correct (a : Nat) (c : Str) :
    toyEth.recover c (toyEth.sign a c) = some (toyEth.address a) := by
  have h : a % 26 % 256 % 26 = a % 26 := by omega
  simp [toyEth, byte, h]

theorem ecdsa_ne_ed25519 : ECDSA ≠ ED25519 := by decide

theorem strip0x_cons (t : Str) : strip0x ('0' :: 'x' :: t) = t := rfl

theorem strip0x_eq_self (s : Str) (h : ∀ t, s ≠ '0' :: 'x' :: t) : strip0x s = s := by
  unfold strip0x
  split
  · next t => exact absurd rfl (h t)
  · rfl

/-- A fresh service successfully initialized for Ed25519: resulting state and
quote data. -/
theorem init_fresh_ed25519_ok (E : EdScheme) (eth : EthScheme) (env : InitEnv)
    (qd : QuoteData) (q : QuoteService)
    (h : (mkQuoteService ED25519).init E eth env false = .ok (qd, q)) :
    q.signing_method = ED25519 ∧ q.ed25519_key = some env.edKey ∧
    q.public_key = some (b64encode (E.pub env.edKey)) ∧
    qd.public_key = some (b64encode (E.pub env.edKey)) ∧
    qd.intel_quote.isSome = true ∧ qd.signing_method = ED25519 := by
  rcases hq : env.quoteRes with val | _ | e <;>
    rcases hi : env.infoRes with i | _ | e2 <;>
    first
    | (obtain ⟨iq, el⟩ := val
       simp only [QuoteService.init, mkQuoteService, get_quote, get_info, init_ed25519,
         quoteDataOf, hq, hi, Option.isSome_none, Bool.false_and, false_and, if_false,
         eq_self_iff_true, if_true, Except.ok.injEq, Prod.mk.injEq, reduceCtorEq] at h
       obtain ⟨h1, h2⟩ := h
       subst h1; subst h2
       simp)
    | (simp only [QuoteService.init, mkQuoteService, get_quote, get_info, init_ed25519,
         quoteDataOf, hq, hi, Option.isSome_none, Bool.false_and, false_and, if_false,
         eq_self_iff_true, if_true, Except.ok.injEq, Prod.mk.injEq, reduceCtorEq] at h
       try (obtain ⟨h1, h2⟩ := h; subst h1; subst h2; simp))

/-- A fresh service successfully initialized for ECDSA: resulting state and
quote data. -/
theorem init_fresh_ecdsa_ok (E : EdScheme) (eth : EthScheme) (env : InitEnv)
    (qd : QuoteData) (q : QuoteService)
    (h : (mkQuoteService ECDSA).init E eth env false = .ok (qd, q)) :
    q.signing_method = ECDSA ∧ q.raw_acct = some env.acct ∧
    q.public_key = some (eth.address env.acct) ∧
    qd.public_key = some (eth.address env.acct) ∧
    qd.intel_quote.isSome = true ∧ qd.signing_method = ECDSA := by
  rcases hq : env.quoteRes with val | _ | e <;>
    rcases hi : env.infoRes with i | _ | e2 <;>
    first
    | (obtain ⟨iq, el⟩ := val
       simp only [QuoteService.init, mkQuoteService, get_quote, get_info, init_ecdsa,
         quoteDataOf, hq, hi, Option.isSome_none, Bool.false_and, false_and, if_false,
         eq_self_iff_true, if_true, ecdsa_ne_ed25519, Except.ok.injEq, Prod.mk.injEq,
         reduceCtorEq] at h
       obtain ⟨h1, h2⟩ := h
       subst h1; subst h2
       simp)
    | (simp only [QuoteService.init, mkQuoteService, get_quote, get_info, init_ecdsa,
         quoteDataOf, hq, hi, Option.isSome_none, Bool.false_and, false_and, if_false,
         eq_self_iff_true, if_true, ecdsa_ne_ed25519, Except.ok.injEq, Prod.mk.injEq,
         reduceCtorEq] at h
       try (obtain ⟨h1, h2⟩ := h; subst h1; subst h2; simp))

/-! ## Claims -/

/-- C1: for every text `T`, language `L`, and detector whose detect/restore
are true inverses under the shared mapping, `anonymize(T, L)` with no
session id followed by `deanonymize` on the returned text with the returned
session id yields exactly `T`. -/
theorem anonymize_then_deanonymize_roundtrip
    (E : EdScheme) (eth : EthScheme) (p : PresidioService)
    (hInv : ∀ sid t lang m,
      p.deanonymize_text sid (p.anonymize_text sid t lang m).1
        (p.anonymize_text sid t lang m).2 = t)
    (sm : Str) (env env' : InitEnv) (store : Store) (text language fresh_id : Str) :
    ∃ r : DeanonResponse,
      (ToolkitService.deanonymize E eth p sm env'
          (ToolkitService.anonymize E eth p sm env store text none language fresh_id).2
          (ToolkitService.anonymize E eth p sm env store text none language fresh_id).1.text
          (ToolkitService.anonymize E eth p sm env store text none language
            fresh_id).1.session_id).1
        = .ok r ∧ r.text = text := by
  simp only [ToolkitService.anonymize, ToolkitService.deanonymize, get_state, set_state,
    List.lookup, beq_self_eq_true]
  exact ⟨_, rfl, hInv fresh_id text language none⟩

theorem anonymize_then_deanonymize_roundtrip_witness :
    ∃ r : DeanonResponse,
      (ToolkitService.deanonymize toyEd toyEth idPresidio ECDSA devEnv
          (ToolkitService.anonymize toyEd toyEth idPresidio ECDSA devEnv [] "hi".toList
            none "en".toList "s1".toList).2
          (ToolkitService.anonymize toyEd toyEth idPresidio ECDSA devEnv [] "hi".toList
            none "en".toList "s1".toList).1.text
          (ToolkitService.anonymize toyEd toyEth idPresidio ECDSA devEnv [] "hi".toList
            none "en".toList "s1".toList).1.session_id).1
        = .ok r ∧ r.text = "hi".toList :=
  anonymize_then_deanonymize_roundtrip toyEd toyEth idPresidio (fun _ _ _ _ => rfl)
    ECDSA devEnv devEnv [] "hi".toList "en".toList "s1".toList

/-- C2: for every non-empty content string and both supported algorithms,
while the signing identity produced by `init()` remains in place (Ready),
verifying the signature produced by `sign_content` against that content and
the identity's public identifier under the same algorithm returns `true`.
Parametric over the external crypto libraries, assumed correct (a keypair's
signature verifies; recovery returns the signer's address; raw Ed25519
public keys are 32 bytes). -/
theorem sign_then_verify
    (E : EdScheme) (eth : EthScheme)
    (hE : ∀ k m, E.verify (E.pub k) (E.sign k m) m = true)
    (hlen : ∀ k, (E.pub k).length = 32)
    (hEth : ∀ a c, eth.recover c (eth.sign a c) = some (eth.address a))
    (env : InitEnv) (content : Str) (hc : content ≠ []) :
    (∀ qd q pk sig,
      (mkQuoteService ED25519).init E eth env false = .ok (qd, q) →
      q.public_key = some pk → q.sign_content E eth content = .ok sig →
      q.verify_signature E eth content sig pk = true) ∧
    (∀ qd q pk sig,
      (mkQuoteService ECDSA).init E eth env false = .ok (qd, q) →
      q.public_key = some pk → q.sign_content E eth content = .ok sig →
      q.verify_signature E eth content sig pk = true) := by
  constructor
  · intro qd q pk sig hinit hpk hsig
    obtain ⟨hsm, hkey, hqpk, -, -, -⟩ := init_fresh_ed25519_ok E eth env qd q hinit
    rw [hqpk] at hpk
    injection hpk with hpk
    subst hpk
    rw [QuoteService.sign_content, if_pos hsm, hkey] at hsig
    injection hsig with hsig
    subst hsig
    simp [QuoteService.verify_signature, hsm, verify_ed25519, b64decode_b64encode,
      hexDecode_hexEncode, hlen, hE]
  · intro qd q pk sig hinit hpk hsig
    obtain ⟨hsm, hacct, hqpk, -, -, -⟩ := init_fresh_ecdsa_ok E eth env qd q hinit
    rw [hqpk] at hpk
    injection hpk with hpk
    subst hpk
    rw [QuoteService.sign_content, hsm, if_neg ecdsa_ne_ed25519, if_pos rfl,
      hacct] at hsig
    injection hsig with hsig
    subst hsig
    simp [QuoteService.verify_signature, hsm, ecdsa_ne_ed25519, verify_ecdsa, strip0x,
      hexDecode_hexEncode, hEth]

theorem sign_then_verify_witness :
    QuoteService.verify_signature toyEd toyEth witEdService "m".toList
        (hexEncode (toyEd.sign 5 (utf8 "m".toList))) (b64encode (toyEd.pub 5)) = true ∧
    QuoteService.verify_signature toyEd toyEth witEcService "m".toList
        ('0' :: 'x' :: hexEncode (toyEth.sign 7 "m".toList)) (toyEth.address 7) = true :=
  ⟨(sign_then_verify toyEd toyEth toyEd_correct toyEd_publen toyEth_correct devEnv
      "m".toList (by decide)).1 (quoteDataOf witEdService) witEdService
      (b64encode (toyEd.pub 5)) (hexEncode (toyEd.sign 5 (utf8 "m".toList)))
      rfl rfl rfl,
   (sign_then_verify toyEd toyEth toyEd_correct toyEd_publen toyEth_correct devEnv
      "m".toList (by decide)).2 (quoteDataOf witEcService) witEcService
      (toyEth.address 7) ('0' :: 'x' :: hexEncode (toyEth.sign 7 "m".toList))
      rfl rfl rfl⟩

/-- C3: `verify_signature` is a total boolean function (the embedding of a
method whose every exception is caught): an unsupported algorithm yields
`false`, and each malformed-input or internal-fault path — base64 decode
failure, wrong public-key length, hex decode failure, recovery failure —
yields `false`, never an error. -/
theorem verify_signature_never_throws
    (E : EdScheme) (eth : EthScheme) (q : QuoteService)
    (content signature public_key : Str) :
    (q.signing_method ≠ ED25519 → q.signing_method ≠ ECDSA →
      q.verify_signature E eth content signature public_key = false) ∧
    (q.signing_method = ED25519 → b64decode public_key = none →
      q.verify_signature E eth content signature public_key = false) ∧
    (∀ pb, q.signing_method = ED25519 → b64decode public_key = some pb →
      pb.length ≠ 32 →
      q.verify_signature E eth content signature public_key = false) ∧
    (∀ pb, q.signing_method = ED25519 → b64decode public_key = some pb →
      hexDecode signature = none →
      q.verify_signature E eth content signature public_key = false) ∧
    (q.signing_method = ECDSA → hexDecode (strip0x signature) = none →
      q.verify_signature E eth content signature public_key = false) ∧
    (∀ sb, q.signing_method = ECDSA → hexDecode (strip0x signature) = some sb →
      eth.recover content sb = none →
      q.verify_signature E eth content signature public_key = false) := by
  refine ⟨?_, ?_, ?_, ?_, ?_, ?_⟩
  · intro h1 h2
    simp [QuoteService.verify_signature, h1, h2]
  · intro h1 h2
    simp [QuoteService.verify_signature, h1, verify_ed25519, h2]
  · intro pb h1 h2 h3
    simp [QuoteService.verify_signature, h1, verify_ed25519, h2, h3]
  · intro pb h1 h2 h3
    by_cases hl : pb.length = 32 <;>
      simp [QuoteService.verify_signature, h1, verify_ed25519, h2, h3, hl]
  · intro h1 h2
    simp [QuoteService.verify_signature, h1, ecdsa_ne_ed25519, verify_ecdsa, h2]
  · intro sb h1 h2 h3
    simp [QuoteService.verify_signature, h1, ecdsa_ne_ed25519, verify_ecdsa, h2, h3]

/-- C4: an anonymize call whose session id is present but unknown in the
store does not fail: it behaves exactly like a fresh-session call with that
id (mapping starts empty/`None`), returning a transformed text result. -/
theorem anonymize_unknown_session_like_fresh
    (E : EdScheme) (eth : EthScheme) (p : PresidioService) (sm : Str) (env : InitEnv)
    (store : Store) (text language sid fresh_id : Str)
    (h : get_state store sid = none) :
    ToolkitService.anonymize E eth p sm env store text (some sid) language fresh_id
      = ToolkitService.anonymize E eth p sm env store text none language sid ∧
    (ToolkitService.anonymize E eth p sm env store text (some sid) language
      fresh_id).1.text = (p.anonymize_text sid text language none).1 := by
  simp [ToolkitService.anonymize, h]

theorem anonymize_unknown_session_like_fresh_witness :
    ToolkitService.anonymize toyEd toyEth idPresidio ECDSA devEnv [] "hi".toList
        (some "s".toList) "en".toList "f".toList
      = ToolkitService.anonymize toyEd toyEth idPresidio ECDSA devEnv [] "hi".toList
        none "en".toList "s".toList ∧
    (ToolkitService.anonymize toyEd toyEth idPresidio ECDSA devEnv [] "hi".toList
        (some "s".toList) "en".toList "f".toList).1.text
      = (idPresidio.anonymize_text "s".toList "hi".toList "en".toList none).1 :=
  anonymize_unknown_session_like_fresh toyEd toyEth idPresidio ECDSA devEnv []
    "hi".toList "en".toList "s".toList "f".toList rfl

/-- C5: a deanonymize call whose session id is absent from the store fails
with the session-not-found `ValueError`, returns no (partial or fabricated)
text, and leaves the store unchanged. -/
theorem deanonymize_unknown_session_fails
    (E : EdScheme) (eth : EthScheme) (p : PresidioService) (sm : Str) (env : InitEnv)
    (store : Store) (text sid : Str)
    (h : get_state store sid = none) :
    ToolkitService.deanonymize E eth p sm env store text sid
      = (.error
          "Deanonymization is not possible because the session is not found".toList,
         store) := by
  simp [ToolkitService.deanonymize, h]

theorem deanonymize_unknown_session_fails_witness :
    ToolkitService.deanonymize toyEd toyEth idPresidio ECDSA devEnv [] "hi".toList
        "s".toList
      = (.error
          "Deanonymization is not possible because the session is not found".toList,
         []) :=
  deanonymize_unknown_session_fails toyEd toyEth idPresidio ECDSA devEnv [] "hi".toList
    "s".toList rfl

/-- C6: when obtaining the quote/signature fails (initialization or signing
raises), the orchestrator call still succeeds — the response carries its
text — and the four attestation fields are the all-`None` fallback; and in
every response the four fields are either all present or all `None`. -/
theorem attestation_failure_swallowed
    (E : EdScheme) (eth : EthScheme) (p : PresidioService) (sm : Str) (env : InitEnv)
    (store : Store) (text : Str) (sid_opt : Option Str) (language fresh_id dsid : Str) :
    (∀ e c, (mkQuoteService sm).init E eth env false = .error e →
      generate_quote_and_signature E eth env sm c = fallbackQuoteFields) ∧
    (∀ qd q e c, (mkQuoteService sm).init E eth env false = .ok (qd, q) →
      q.sign_content E eth c = .error e →
      generate_quote_and_signature E eth env sm c = fallbackQuoteFields) ∧
    (let resp := (ToolkitService.anonymize E eth p sm env store text sid_opt
        language fresh_id).1
     (resp.quote = none ∧ resp.signature = none ∧ resp.public_key = none ∧
        resp.signing_method = none) ∨
     (resp.quote.isSome ∧ resp.signature.isSome ∧ resp.public_key.isSome ∧
        resp.signing_method.isSome)) ∧
    (∀ r, (ToolkitService.deanonymize E eth p sm env store text dsid).1 = .ok r →
      (r.quote = none ∧ r.signature = none ∧ r.public_key = none ∧
        r.signing_method = none) ∨
      (r.quote.isSome ∧ r.signature.isSome ∧ r.public_key.isSome ∧
        r.signing_method.isSome)) := by
  have hfields : ∀ c, generate_quote_and_signature E eth env sm c = fallbackQuoteFields ∨
      ((generate_quote_and_signature E eth env sm c).quote.isSome ∧
       (generate_quote_and_signature E eth env sm c).signature.isSome ∧
       (generate_quote_and_signature E eth env sm c).public_key.isSome ∧
       (generate_quote_and_signature E eth env sm c).signing_method.isSome) := by
    intro c
    unfold generate_quote_and_signature
    cases hinit : (mkQuoteService sm).init E eth env false with
    | error e => exact .inl rfl
    | ok v =>
      obtain ⟨qd, q⟩ := v
      dsimp only
      cases hsig : q.sign_content E eth c with
      | error e => exact .inl rfl
      | ok s =>
        refine .inr ?_
        by_cases h1 : sm = ED25519
        · subst h1
          obtain ⟨-, -, -, hpk, hiq, -⟩ := init_fresh_ed25519_ok E eth env qd q hinit
          simp [hsig, hpk, hiq]
        · by_cases h2 : sm = ECDSA
          · subst h2
            obtain ⟨-, -, -, hpk, hiq, -⟩ := init_fresh_ecdsa_ok E eth env qd q hinit
            simp [hsig, hpk, hiq]
          · exfalso
            simp [QuoteService.init, mkQuoteService, h1, h2] at hinit
  refine ⟨?_, ?_, ?_, ?_⟩
  · intro e c h
    unfold generate_quote_and_signature
    rw [h]
  · intro qd q e c h1 h2
    unfold generate_quote_and_signature
    rw [h1]
    dsimp only
    rw [h2]
  · rcases hfields (p.anonymize_text
        (match sid_opt with | none => fresh_id | some s => s) text language
        (match sid_opt with | none => none | some s => get_state store s)).1 with h | h
    · refine .inl ?_
      simp only [ToolkitService.anonymize]
      cases sid_opt <;> simp_all [fallbackQuoteFields]
    · refine .inr ?_
      simp only [ToolkitService.anonymize]
      cases sid_opt <;> simp_all
  · intro r hr
    cases hst : get_state store dsid with
    | none => simp [ToolkitService.deanonymize, hst] at hr
    | some m =>
      simp only [ToolkitService.deanonymize, hst] at hr
      injection hr with hr
      subst hr
      rcases hfields (p.deanonymize_text dsid text m) with h | h
      · exact .inl (by simp [h, fallbackQuoteFields])
      · exact .inr (by simp_all)

/-- C7 counterexample: on a fresh (not yet initialized) service with the
supported ECDSA algorithm, `sign_content` does not auto-initialize and
return a signature — it raises (`AttributeError` on the `None` account). -/
theorem sign_content_uninitialized_errors :
    (mkQuoteService ECDSA).sign_content toyEd toyEth "m".toList
      = .error "AttributeError: NoneType has no attribute sign_message".toList := rfl

/-- C7 (amended): `sign_content` does not auto-initialize.  When the
configured algorithm's identity is not in place it fails with an
`AttributeError`; after a successful `init()` of a fresh service it returns
a signature.  (It is `get_public_key`, not `sign_content`, that
auto-initializes.) -/
theorem sign_content_no_auto_init
    (E : EdScheme) (eth : EthScheme) (q : QuoteService) (content : Str) :
    (q.signing_method = ED25519 → q.ed25519_key = none →
      q.sign_content E eth content
        = .error "AttributeError: NoneType has no attribute sign".toList) ∧
    (q.signing_method = ECDSA → q.raw_acct = none →
      q.sign_content E eth content
        = .error "AttributeError: NoneType has no attribute sign_message".toList) ∧
    (∀ env qd q1, (mkQuoteService ED25519).init E eth env false = .ok (qd, q1) →
      ∃ s, q1.sign_content E eth content = .ok s) ∧
    (∀ env qd q1, (mkQuoteService ECDSA).init E eth env false = .ok (qd, q1) →
      ∃ s, q1.sign_content E eth content = .ok s) := by
  refine ⟨?_, ?_, ?_, ?_⟩
  · intro h1 h2
    rw [QuoteService.sign_content, if_pos h1, h2]
  · intro h1 h2
    rw [QuoteService.sign_content, h1, if_neg ecdsa_ne_ed25519, if_pos rfl, h2]
  · intro env qd q1 h
    obtain ⟨hsm, hkey, -, -, -, -⟩ := init_fresh_ed25519_ok E eth env qd q1 h
    exact ⟨_, by rw [QuoteService.sign_content, if_pos hsm, hkey]⟩
  · intro env qd q1 h
    obtain ⟨hsm, hacct, -, -, -, -⟩ := init_fresh_ecdsa_ok E eth env qd q1 h
    exact ⟨_, by rw [QuoteService.sign_content, hsm, if_neg ecdsa_ne_ed25519,
      if_pos rfl, hacct]⟩

/-- C8 counterexample: the orchestrator builds a fresh `QuoteService` per
call, so two signed results produced in one process without any forced
reinitialization can carry different public identifiers (each call draws
fresh key material). -/
theorem signed_results_different_identifiers :
    (generate_quote_and_signature toyEd toyEth devEnv ECDSA "m".toList).public_key
        = some (toyEth.address 7) ∧
    (generate_quote_and_signature toyEd toyEth devEnv2 ECDSA "m".toList).public_key
        = some (toyEth.address 8) ∧
    (generate_quote_and_signature toyEd toyEth devEnv ECDSA
        "m".toList).signature.isSome = true ∧
    (generate_quote_and_signature toyEd toyEth devEnv2 ECDSA
        "m".toList).signature.isSome = true ∧
    (toyEth.address 7 == toyEth.address 8) = false := by decide

/-- C8 (amended): within one `QuoteService` instance `init()` without force
after an identity exists returns the existing data and leaves the identity
unchanged (idempotent unless forced); but the orchestrator constructs a new
`QuoteService` per signing operation, so distinct calls may carry distinct
public identifiers. -/
theorem init_idempotent_unless_forced
    (E : EdScheme) (eth : EthScheme) (env : InitEnv) (q : QuoteService) (a : Str)
    (h : q.signing_address = some a) :
    q.init E eth env false = .ok (quoteDataOf q, q) := by
  simp [QuoteService.init, h]

theorem init_idempotent_unless_forced_witness :
    witEcService.init toyEd toyEth failEnv false
      = .ok (quoteDataOf witEcService, witEcService) :=
  init_idempotent_unless_forced toyEd toyEth failEnv witEcService (toyEth.address 7) rfl

/-- C10 counterexample: ECDSA verification is not insensitive to prepending
`"0x"` for every signature string: for a valid signature string `s` that
already carries the `"0x"` prefix (as every signature produced by
`_sign_ecdsa` does), `verify(c, s, id)` is `true` while
`verify(c, "0x" + s, id)` is `false` — the verifier strips only one
prefix and `bytes.fromhex` then rejects the remaining `"0x"`. -/
theorem verify_ecdsa_double_prefix_differs :
    verify_ecdsa toyEth "m".toList
        ('0' :: 'x' :: hexEncode (toyEth.sign 7 "m".toList)) (toyEth.address 7)
      = true ∧
    verify_ecdsa toyEth "m".toList
        ('0' :: 'x' :: '0' :: 'x' :: hexEncode (toyEth.sign 7 "m".toList))
        (toyEth.address 7)
      = false := by decide

/-- C10 (amended): `_sign_ecdsa` always returns a `"0x"`-prefixed signature
string, and ECDSA verification is insensitive to the optional prefix for
every signature string that does not already start with `"0x"`:
`verify(c, s, id) = verify(c, "0x" + s, id)`.  (A string already starting
with `"0x"` loses only one prefix, and the residual `"0x"` makes hex
decoding fail.) -/
theorem ecdsa_sign_prefixed_verify_prefix_insensitive
    (E : EdScheme) (eth : EthScheme) (q : QuoteService) (a : Nat) (content pk : Str)
    (hsm : q.signing_method = ECDSA) (hacct : q.raw_acct = some a) :
    (∃ t, q.sign_content E eth content = .ok ('0' :: 'x' :: t)) ∧
    (∀ s : Str, (∀ t, s ≠ '0' :: 'x' :: t) →
      verify_ecdsa eth content s pk = verify_ecdsa eth content ('0' :: 'x' :: s) pk) ∧
    (∀ t pk2, verify_ecdsa eth content ('0' :: 'x' :: '0' :: 'x' :: t) pk2 = false) := by
  refine ⟨?_, ?_, ?_⟩
  · exact ⟨hexEncode (eth.sign a content),
      by rw [QuoteService.sign_content, hsm, if_neg ecdsa_ne_ed25519, if_pos rfl, hacct]⟩
  · intro s hs
    rw [verify_ecdsa, verify_ecdsa, strip0x_cons, strip0x_eq_self s hs]
  · intro t pk2
    have hx : hexDigitVal 'x' = none := by decide
    simp [verify_ecdsa, strip0x_cons, hexDecode, hx]

theorem ecdsa_sign_prefixed_verify_prefix_insensitive_witness :
    (∃ t, witEcService.sign_content toyEd toyEth "m".toList = .ok ('0' :: 'x' :: t)) ∧
    (∀ s : Str, (∀ t, s ≠ '0' :: 'x' :: t) →
      verify_ecdsa toyEth "m".toList s "p".toList
        = verify_ecdsa toyEth "m".toList ('0' :: 'x' :: s) "p".toList) ∧
    (∀ t pk2, verify_ecdsa toyEth "m".toList ('0' :: 'x' :: '0' :: 'x' :: t) pk2
        = false) :=
  ecdsa_sign_prefixed_verify_prefix_insensitive toyEd toyEth witEcService 7
    "m".toList "p".toList rfl rfl

/-- C9: deanonymize never writes to the session store (and the detector's
`restore` is a pure function of the mapping): for every session id the
stored mapping before and after a deanonymize call is identical. -/
theorem deanonymize_preserves_mappings
    (E : EdScheme) (eth : EthScheme) (p : PresidioService) (sm : Str) (env : InitEnv)
    (store : Store) (text sid : Str) :
    (ToolkitService.deanonymize E eth p sm env store text sid).2 = store ∧
    ∀ sid', get_state (ToolkitService.deanonymize E eth p sm env store text sid).2 sid'
      = get_state store sid' := by
  cases h : get_state store sid <;> simp [ToolkitService.deanonymize, h]

end PiiTee
